import Mathlib

/-!
Shallow embedding of `ledgerautosync/converter.py` (ledger-autosync).

The Python module converts parsed OFX / CSV bank records into plain-text
double-entry ledger postings.  Python `Decimal` values are embedded as a
sign bit, a natural coefficient and an integer exponent (the triple that
`Decimal` itself stores); Python `None` / missing attributes are embedded
as `Option`; code paths that can raise are embedded in `Except`.
-/

deriving instance DecidableEq for Except

namespace LedgerAutosync

/-! ### String helpers -/

/-- `" " * n` -/
def spaces (n : Nat) : String :=
  String.mk (List.replicate n ' ')

/-- One decimal digit as a character. -/
def digitChar (d : Nat) : Char :=
  Char.ofNat (48 + d)

/-- Decimal digits of `n`, most significant first, by fuel recursion. -/
def natDigitsAux : Nat → Nat → List Char
  | 0, _ => []
  | fuel + 1, n => if n = 0 then [] else natDigitsAux fuel (n / 10) ++ [digitChar (n % 10)]

/-- Decimal digits of `n` (`['0']` for zero), as Python renders a nonnegative int. -/
def natDigits (n : Nat) : List Char :=
  if n = 0 then ['0'] else natDigitsAux (n + 1) n

/-- Decimal rendering of a natural number. -/
def natStr (n : Nat) : String :=
  String.mk (natDigits n)

/-- Render `n < 100` with exactly two digits (zero padded), as `"%02d"`. -/
def pad2 (n : Nat) : String :=
  if n < 10 then "0" ++ natStr n else natStr n

/-- Render a year with four digits (zero padded), as `strftime`'s `%Y`. -/
def pad4 (n : Nat) : String :=
  if n < 10 then "000" ++ natStr n
  else if n < 100 then "00" ++ natStr n
  else if n < 1000 then "0" ++ natStr n
  else natStr n

/-! ### Python `Decimal` -/

/-- A finite Python `Decimal`: value `(-1)^sign * coeff * 10^exp`.
(`Decimal` stores exactly this triple; context-precision rounding is not
modelled, the coefficients handled by the program stay far below the
default 28-digit context.) -/
structure PyDecimal where
  sign : Bool
  coeff : Nat
  exp : Int
  deriving DecidableEq, Repr

/-- `Decimal.is_signed()`: the sign bit. -/
def PyDecimal.is_signed (d : PyDecimal) : Bool :=
  d.sign

/-- `abs(d)` on a finite `Decimal`: clear the sign bit. -/
def PyDecimal.pyAbs (d : PyDecimal) : PyDecimal :=
  { d with sign := false }

/-- `str(d)` for a finite `Decimal`, following the to-scientific-string
algorithm of the General Decimal Arithmetic specification that
`Decimal.__str__` implements. -/
def PyDecimal.str (d : PyDecimal) : String :=
  let digits := natDigits d.coeff
  let adjusted : Int := d.exp + digits.length - 1
  let body :=
    if d.exp ≤ 0 ∧ -6 ≤ adjusted then
      if d.exp = 0 then String.mk digits
      else if 0 < (digits.length : Int) + d.exp then
        let k := ((digits.length : Int) + d.exp).toNat
        String.mk (digits.take k) ++ "." ++ String.mk (digits.drop k)
      else
        "0." ++ String.mk (List.replicate (-(d.exp + digits.length)).toNat '0') ++ String.mk digits
    else
      String.mk (digits.take 1) ++
        (if 1 < digits.length then "." ++ String.mk (digits.drop 1) else "") ++
        "E" ++ (if adjusted < 0 then "-" else "+") ++ natStr adjusted.natAbs
  (if d.sign then "-" else "") ++ body

/-- Round `n / d` (with `0 < d`) to the nearest integer, ties to even. -/
def roundHalfEvenDiv (n d : Nat) : Nat :=
  let q := n / d
  let r := n % d
  if 2 * r < d then q
  else if d < 2 * r then q + 1
  else if q % 2 = 0 then q else q + 1

/-- The magnitude of `d` in cents, rounded half-to-even: the integer
printed by `"%0.2f"` (scaled by 100). -/
def PyDecimal.cents2 (d : PyDecimal) : Nat :=
  if 0 ≤ d.exp + 2 then d.coeff * 10 ^ (d.exp + 2).toNat
  else roundHalfEvenDiv d.coeff (10 ^ (-(d.exp + 2)).toNat)

/-- `"%0.2f" % d`: fixed-point rendering with exactly two fractional
digits.  (The Python `%`-operator routes a `Decimal` through `float`;
this is modelled as exact half-even rounding of the decimal to two
places.  The program only applies it to `abs(...)`, so `sign` is false
at every call site.) -/
def PyDecimal.fixed2 (d : PyDecimal) : String :=
  (if d.sign then "-" else "") ++ natStr (d.cents2 / 100) ++ "." ++ pad2 (d.cents2 % 100)

/-- `d1 * d2` on finite decimals (exact; context rounding not modelled). -/
def PyDecimal.mul (d1 d2 : PyDecimal) : PyDecimal :=
  ⟨xor d1.sign d2.sign, d1.coeff * d2.coeff, d1.exp + d2.exp⟩

/-! ### `Amount` -/

/-- Python-2 `re` whitespace class `\s` = `[ \t\n\r\f\v]`. -/
def isPyWhitespace (c : Char) : Bool :=
  c = ' ' || c = '\t' || c = '\n' || c = '\r' || c = '\x0c' || c = '\x0b'

/-- `re.search(r'[\s0-9]', s)` succeeds: some character is whitespace or a digit. -/
def containsWsOrDigit (s : String) : Bool :=
  s.data.any (fun c => isPyWhitespace c || ('0' ≤ c && c ≤ '9'))

/-- The commodity label as printed: quoted iff it holds whitespace or a digit. -/
def quoteLabel (currency : String) : String :=
  if containsWsOrDigit currency then "\"" ++ currency ++ "\"" else currency

/-- `Amount(number, currency, reverse, unlimited)` (`converter.py`, `class Amount`). -/
structure Amount where
  number : PyDecimal
  currency : String
  reverse : Bool := false
  unlimited : Bool := false
  deriving DecidableEq, Repr

/-- `Amount.format` (`converter.py` lines 57-77). -/
def Amount.format (a : Amount) : String :=
  let currency := quoteLabel a.currency
  let number := if a.unlimited then a.number.pyAbs.str else a.number.pyAbs.fixed2
  let sgn := if a.number.is_signed != a.reverse then "-" else ""
  if currency.length = 1 then
    sgn ++ currency ++ number
  else
    sgn ++ number ++ " " ++ currency

/-! ### `Posting` -/

/-- `Posting(account, amount, indent=4, asserted=None, unit_price=None)`. -/
structure Posting where
  account : String
  amount : Amount
  indent : Nat := 4
  asserted : Option Amount := none
  unit_price : Option Amount := none
  deriving DecidableEq, Repr

/-- The `space_count` local of `Posting.format`: `52 - indent - len(account)
- len(amount.format())`, floored at 2. -/
def Posting.space_count (p : Posting) (indent : Nat) : Int :=
  let sc : Int := 52 - (indent : Int) - (p.account.length : Int) - (p.amount.format.length : Int)
  if sc < 2 then 2 else sc

/-- `Posting.format(indent)` (`converter.py` lines 38-48). -/
def Posting.format (p : Posting) (indent : Nat) : String :=
  let retval := spaces indent ++ p.account ++ spaces (p.space_count indent).toNat ++ p.amount.format
  let retval :=
    match p.asserted with
    | some a => retval ++ " = " ++ a.format
    | none => retval
  let retval :=
    match p.unit_price with
    | some a => retval ++ " @ " ++ a.format
    | none => retval
  retval ++ "\n"

/-! ### `Converter` base -/

/-- Python `str.replace` with a single-character pattern: replace every
occurrence of that character. -/
def replaceChar (pat rep : Char) : List Char → List Char
  | [] => []
  | c :: cs => (if c = pat then rep else c) :: replaceChar pat rep cs

/-- `Converter.clean_id` (`converter.py` lines 81-86): the four chained
`str.replace` calls, `/` then `$` then space then `@`, each to `_`. -/
def Converter.clean_id (id : String) : String :=
  String.mk (replaceChar '@' '_' (replaceChar ' ' '_' (replaceChar '$' '_' (replaceChar '/' '_' id.data))))

/-- Python `x or dflt` on an optional string: `None` and `""` are falsy. -/
def pyOr (o : Option String) (dflt : String) : String :=
  match o with
  | none => dflt
  | some s => if s = "" then dflt else s

/-- A Python `datetime` (to the second, which is all `strftime` here uses). -/
structure PyDatetime where
  year : Nat
  month : Nat
  day : Nat
  hour : Nat := 0
  minute : Nat := 0
  second : Nat := 0
  deriving DecidableEq, Repr

/-- `date.strftime("%Y/%m/%d")` (`Converter.format_date`). -/
def Converter.format_date (d : PyDatetime) : String :=
  pad4 d.year ++ "/" ++ pad2 d.month ++ "/" ++ pad2 d.day

/-- `date.strftime("%Y/%m/%d %H:%M:%S")` (used by `format_position`). -/
def PyDatetime.strftimeFull (d : PyDatetime) : String :=
  pad4 d.year ++ "/" ++ pad2 d.month ++ "/" ++ pad2 d.day ++ " " ++
    pad2 d.hour ++ ":" ++ pad2 d.minute ++ ":" ++ pad2 d.second

/-- The injected ledger-lookup capability (`self.lgr`): one read-only
operation, payee and excluded account to an optional account name. -/
structure Lookup where
  get_account_by_payee : String → String → Option String

/-- Currency normalization done in `Converter.__init__`: uppercase, then
map `"USD"` to `"$"`. -/
def Converter.normalize_currency (currency : String) : String :=
  let c := currency.toUpper
  if c = "USD" then "$" else c

/-! ### OFX records (external inputs, as consumed by the converter) -/

/-- An OFX institution record; only its `fid` is read. -/
structure Institution where
  fid : String
  deriving DecidableEq, Repr

/-- The statement attached to an OFX account.  `Option` fields model
attributes that may be absent (or, for the dates, not date-like). -/
structure Statement where
  currency : String
  balance_date : Option PyDatetime := none
  end_date : Option PyDatetime := none
  balance : Option PyDecimal := none
  deriving DecidableEq, Repr

/-- An OFX account record as read by `OfxConverter.__init__`. -/
structure OfxAccount where
  account_id : String
  institution : Option Institution
  statement : Statement
  deriving DecidableEq, Repr

/-- A cash `Transaction`: `payee` / `memo` are `none` when the attribute
is missing or `None`. -/
structure CashTxn where
  id : String
  date : PyDatetime
  payee : Option String := none
  memo : Option String := none
  amount : PyDecimal
  deriving DecidableEq, Repr

/-- An investment transaction-type code: textual in recent `ofxparse`,
an integer in old versions. -/
inductive InvTxnType where
  | text (s : String)
  | legacy (n : Int)
  deriving DecidableEq, Repr

/-- An `InvestmentTransaction`. -/
structure InvestmentTxn where
  id : String
  tradeDate : PyDatetime
  settleDate : Option PyDatetime := none
  type : InvTxnType
  units : PyDecimal
  unit_price : PyDecimal
  security : String
  payee : Option String := none
  memo : Option String := none
  deriving DecidableEq, Repr

/-- The two transaction shapes `format_txn` dispatches on by `isinstance`. -/
inductive OfxTransaction where
  | cash (txn : CashTxn)
  | invest (txn : InvestmentTxn)
  deriving DecidableEq, Repr

/-- A position record as read by `format_position`; `none` models a
missing attribute. -/
structure Position where
  date : Option PyDatetime := none
  security : Option String := none
  unit_price : Option PyDecimal := none
  deriving DecidableEq, Repr

/-! ### `OfxConverter` -/

/-- An `OfxConverter` after successful construction. -/
structure OfxConverter where
  name : String
  fid : String
  acctid : String
  indent : Nat
  currency : String
  lgr : Option Lookup := none
  unknownaccount : Option String := none

/-- `OfxConverter.__init__` (`converter.py` lines 111-126): raises
`EmptyInstitutionException` (the spec's ConfigurationError) when the
account has no institution and no explicit `fid` was supplied. -/
def OfxConverter.mk? (account : OfxAccount) (name : String) (indent : Nat := 4)
    (ledger : Option Lookup := none) (fid : Option String := none)
    (unknownaccount : Option String := none) : Except String OfxConverter :=
  let currency := Converter.normalize_currency account.statement.currency
  match fid with
  | some f =>
    .ok { name := name, fid := f, acctid := account.account_id, indent := indent,
          currency := currency, lgr := ledger, unknownaccount := unknownaccount }
  | none =>
    match account.institution with
    | none => .error ("Institution provided by OFX is empty and no fid supplied!")
    | some inst =>
      .ok { name := name, fid := inst.fid, acctid := account.account_id, indent := indent,
            currency := currency, lgr := ledger, unknownaccount := unknownaccount }

/-- `Converter.mk_dynamic_account`: fall back to the configured unknown
account or `"Expenses:Misc"` when there is no ledger lookup or it yields
nothing. -/
def OfxConverter.mk_dynamic_account (c : OfxConverter) (payee exclude : String) : String :=
  match c.lgr with
  | none => pyOr c.unknownaccount ("Expenses:Misc")
  | some l =>
    match l.get_account_by_payee payee exclude with
    | none => pyOr c.unknownaccount ("Expenses:Misc")
    | some account => account

/-- `OfxConverter.mk_ofxid`: sanitized `"<fid>.<acctid>.<txnid>"`. -/
def OfxConverter.mk_ofxid (c : OfxConverter) (txnid : String) : String :=
  Converter.clean_id (c.fid ++ "." ++ c.acctid ++ "." ++ txnid)

/-- Python truthiness test `x is None or x == ''` on an optional string. -/
def isNoneOrEmpty (o : Option String) : Bool :=
  o.isNone || o = some ""

/-- Python `s.startswith(pre)`: character-prefix test. -/
def pyStartsWith (s pre : String) : Bool :=
  pre.data.isPrefixOf s.data

/-- `OfxConverter.format_payee` (`converter.py` lines 131-146) on the
transaction's optional `payee` / `memo` attributes.  When the payee is
nonempty the code evaluates `txn.memo.startswith(payee)`, which raises
an `AttributeError` when the memo attribute is missing or `None`; that
raise is the `.error` branch. -/
def OfxConverter.format_payee (payee memo : Option String) : Except String String :=
  if isNoneOrEmpty payee && isNoneOrEmpty memo then .ok ("UNKNOWN")
  else if isNoneOrEmpty payee then .ok (memo.getD "")
  else
    match memo with
    | none => .error ("AttributeError: object has no attribute 'startswith'")
    | some m =>
      let p := payee.getD ""
      if pyStartsWith m p then .ok m
      else if m = "" || pyStartsWith p m then .ok p
      else .ok (p ++ " " ++ m)

/-- `OfxConverter.format_balance` (`converter.py` lines 148-167). -/
def OfxConverter.format_balance (c : OfxConverter) (statement : Statement) : String :=
  let dateOpt :=
    match statement.balance_date with
    | some d => some d
    | none => statement.end_date
  match dateOpt with
  | none => ""
  | some date =>
    match statement.balance with
    | none => ""
    | some bal =>
      Converter.format_date date ++ " * --Autosync Balance Assertion\n" ++
        Posting.format
          { account := c.name,
            amount := { number := ⟨false, 0, 0⟩, currency := c.currency },
            asserted := some { number := bal, currency := c.currency } } c.indent

/-- The `acct2` contra-account selection of the investment branch of
`format_txn` (`converter.py` lines 201-228).  `acct2` starts as the
converter's own account name and is only reassigned for recognized
buy/sell and reinvest codes; every other code leaves it unchanged, so no
code is fatal. -/
def investContra (unknownaccount : Option String) (name : String) : InvTxnType → String
  | .text s =>
    if pyStartsWith s ("buy") || pyStartsWith s ("sell") then pyOr unknownaccount ("Assets:Unknown")
    else if s = "transfer" || s = "jrnlsec" then name
    else if s = "reinvest" then "Income:Interest"
    else name
  | .legacy n =>
    if n = 0 ∨ n = 1 ∨ n = 3 ∨ n = 4 then pyOr unknownaccount ("Assets:Unknown")
    else if n = 2 then "Income:Interest"
    else name

/-- `OfxConverter.format_txn` (`converter.py` lines 186-249).  The source
calls `format_payee` twice on the cash path with the same pure result;
the embedding binds it once.  A `format_payee` raise propagates. -/
def OfxConverter.format_txn (c : OfxConverter) : OfxTransaction → Except String String
  | .cash txn =>
    let ofxid := c.mk_ofxid txn.id
    (OfxConverter.format_payee txn.payee txn.memo).bind (fun payee =>
      .ok (Converter.format_date txn.date ++ " " ++ payee ++ "\n"
        ++ spaces c.indent ++ "; ofxid: " ++ ofxid ++ "\n"
        ++ Posting.format { account := c.name,
                            amount := { number := txn.amount, currency := c.currency } } c.indent
        ++ Posting.format { account := c.mk_dynamic_account payee c.name,
                            amount := { number := txn.amount, currency := c.currency,
                                        reverse := true } } c.indent))
  | .invest txn =>
    let ofxid := c.mk_ofxid txn.id
    let acct1 := c.name
    let acct2 := investContra c.unknownaccount c.name txn.type
    (OfxConverter.format_payee txn.payee txn.memo).bind (fun payee =>
      let header :=
        match txn.settleDate with
        | some sd =>
          if sd ≠ txn.tradeDate then
            Converter.format_date txn.tradeDate ++ "=" ++ Converter.format_date sd
              ++ " " ++ payee ++ "\n"
          else
            Converter.format_date txn.tradeDate ++ " " ++ payee ++ "\n"
        | none => Converter.format_date txn.tradeDate ++ " " ++ payee ++ "\n"
      .ok (header
        ++ spaces c.indent ++ "; ofxid: " ++ ofxid ++ "\n"
        ++ Posting.format { account := acct1,
                            amount := { number := txn.units, currency := txn.security,
                                        unlimited := true },
                            unit_price := some { number := txn.unit_price,
                                                 currency := c.currency,
                                                 unlimited := true } } c.indent
        ++ Posting.format { account := acct2,
                            amount := { number := txn.units.mul txn.unit_price,
                                        currency := c.currency,
                                        reverse := true } } c.indent))

/-- `OfxConverter.format_position` (`converter.py` lines 251-255): the
function falls off the end (returns `None`) unless `date`, `security`
and `unit_price` are all present. -/
def OfxConverter.format_position (pos : Position) : Option String :=
  match pos.date, pos.security, pos.unit_price with
  | some d, some sec, some up =>
    some ("P " ++ d.strftimeFull ++ " " ++ sec ++ " " ++ up.str ++ "\n")
  | _, _, _ => none

/-! ### `CsvConverter` -/

/-- Lexicographic byte order on strings, as Python 2 compares `str`
values (the headers are ASCII, so char codepoint order is byte order). -/
def charListLe : List Char → List Char → Bool
  | [], _ => true
  | _ :: _, [] => false
  | c :: cs, d :: ds =>
    if c.toNat < d.toNat then true
    else if d.toNat < c.toNat then false
    else charListLe cs ds

/-- `a <= b` on Python 2 strings. -/
def pyStrLe (a b : String) : Bool :=
  charListLe a.data b.data

/-- Python `sorted` on a list of strings, modelled as insertion sort:
over the (total, antisymmetric) string order every sort agrees. -/
def pySorted (l : List String) : List String :=
  List.insertionSort (fun a b => pyStrLe a b = true) l

/-- `CsvConverter.PAYPAL_FIELDS` (`converter.py` line 259). -/
def PAYPAL_FIELDS : List String :=
  ["Date", "Time", "Time Zone", "Name", "Type", "Status", "Currency", "Gross", "Fee",
   "Net", "From Email Address", "To Email Address", "Transaction ID",
   "Counterparty Status", "Shipping Address", "Address Status", "Item Title", "Item ID",
   "Shipping and Handling Amount", "Insurance Amount", "Sales Tax", "Option 1 Name",
   "Option 1 Value", "Option 2 Name", "Option 2 Value", "Auction Site", "Buyer ID",
   "Item URL", "Closing Date", "Escrow Id", "Invoice Id", "Reference Txn ID",
   "Invoice Number", "Custom Number", "Receipt ID", "Balance", "Contact Phone Number",
   ""]

/-- The CSV input at construction time: its header row. -/
structure CsvFile where
  fieldnames : List String
  deriving DecidableEq, Repr

/-- A `CsvConverter` after successful construction. -/
structure CsvConverter where
  name : String
  csv : CsvFile
  csv_type : String
  indent : Nat
  lgr : Option Lookup := none
  unknownaccount : Option String := none

/-- `CsvConverter.__init__` (`converter.py` lines 261-271): compares
`sorted(fieldnames)` with `sorted(PAYPAL_FIELDS)` and raises (the
spec's UnsupportedFormatError) on mismatch, before any row is read. -/
def CsvConverter.mk? (name : String) (csv : CsvFile) (indent : Nat := 4)
    (ledger : Option Lookup := none) (unknownaccount : Option String := none) :
    Except String CsvConverter :=
  if pySorted csv.fieldnames = pySorted PAYPAL_FIELDS then
    .ok { name := name, csv := csv, csv_type := "paypal", indent := indent,
          lgr := ledger, unknownaccount := unknownaccount }
  else
    .error ("Cannot determine CSV type")

/-! ### Displayed numeric value of a formatted `Amount` -/

/-- The rational number an `Amount` renders: the printed magnitude (exact
when `unlimited`, rounded to cents otherwise) with the printed sign. -/
def Amount.displayed_value (a : Amount) : ℚ :=
  let mag : ℚ :=
    if a.unlimited then (a.number.coeff : ℚ) * (10 : ℚ) ^ a.number.exp
    else (a.number.cents2 : ℚ) / 100
  if a.number.is_signed != a.reverse then -mag else mag

/-! ### Helper lemmas -/

theorem replaceChar_eq_map (pat rep : Char) (l : List Char) :
    replaceChar pat rep l = l.map (fun c => if c = pat then rep else c) := by
  induction l with
  | nil => rfl
  | cons c cs ih => simp [replaceChar, ih]

/-- The per-character action `clean_id` performs: the four sanitized
characters become `_`, everything else is left alone. -/
def cleanChar (c : Char) : Char :=
  if c = '/' ∨ c = '$' ∨ c = ' ' ∨ c = '@' then '_' else c

theorem clean_id_data (x : String) :
    (Converter.clean_id x).data = x.data.map cleanChar := by
  unfold Converter.clean_id
  simp only [replaceChar_eq_map, List.map_map]
  apply List.map_congr_left
  intro a _
  by_cases h1 : a = '/' <;> by_cases h2 : a = '$' <;> by_cases h3 : a = ' ' <;>
    by_cases h4 : a = '@' <;> simp [cleanChar, h1, h2, h3, h4, Function.comp]

theorem cleanChar_idem (c : Char) : cleanChar (cleanChar c) = cleanChar c := by
  by_cases h : c = '/' ∨ c = '$' ∨ c = ' ' ∨ c = '@' <;> simp [cleanChar, h]

/-! ### C8 -/

/-- C8: `clean_id` replaces every `/`, `$`, space and `@` by `_` and leaves
every other character unchanged; `clean_id("a/b$c d@e") = "a_b_c_d_e"`;
and `clean_id` is idempotent. -/
theorem C8_clean_id_pointwise_and_idempotent (x : String) :
    (Converter.clean_id x).data = x.data.map cleanChar
    ∧ Converter.clean_id "a/b$c d@e" = "a_b_c_d_e"
    ∧ Converter.clean_id (Converter.clean_id x) = Converter.clean_id x := by
  refine ⟨clean_id_data x, by decide, ?_⟩
  apply String.ext
  rw [clean_id_data, clean_id_data, List.map_map]
  apply List.map_congr_left
  intro a _
  exact cleanChar_idem a

/-! ### C6 -/

/-- C6: `OfxConverter` construction fails (with the empty-institution
error, the spec's ConfigurationError) exactly when the account carries no
institution and no explicit `fid` was supplied; otherwise it succeeds. -/
theorem C6_init_fails_iff_no_institution_and_no_fid (account : OfxAccount) (name : String)
    (indent : Nat) (ledger : Option Lookup) (fid : Option String) (ua : Option String) :
    (OfxConverter.mk? account name indent ledger fid ua
        = .error ("Institution provided by OFX is empty and no fid supplied!")
      ↔ (account.institution = none ∧ fid = none))
    ∧ ((OfxConverter.mk? account name indent ledger fid ua).isOk = true
      ↔ ¬(account.institution = none ∧ fid = none)) := by
  unfold OfxConverter.mk?
  cases fid <;> cases h : account.institution <;>
    simp [h, Except.isOk, Except.toBool]

/-! ### C10 -/

/-- C10: `format_position` yields a line only when `date`, `security` and
`unit_price` are all present, and never yields the empty string — while
`format_balance` falls back to the empty string when no usable date is
present. -/
theorem C10_format_position_none_on_missing_fields (pos : Position) (c : OfxConverter)
    (stmt : Statement) (h1 : stmt.balance_date = none) (h2 : stmt.end_date = none) :
    (OfxConverter.format_position pos = none
      ↔ (pos.date = none ∨ pos.security = none ∨ pos.unit_price = none))
    ∧ (∀ s, OfxConverter.format_position pos = some s → s ≠ "")
    ∧ c.format_balance stmt = "" := by
  refine ⟨?_, ?_, ?_⟩
  · cases hd : pos.date <;> cases hs : pos.security <;> cases hu : pos.unit_price <;>
      simp [OfxConverter.format_position, hd, hs, hu]
  · intro s hs'
    cases hd : pos.date <;> cases hsec : pos.security <;> cases hu : pos.unit_price <;>
      rw [OfxConverter.format_position] at hs' <;> simp [hd, hsec, hu] at hs'
    intro h0
    rw [h0] at hs'
    have := congrArg String.data hs'
    simp [String.data_append] at this
  · unfold OfxConverter.format_balance
    rw [h1, h2]

/-- Witness for C10 at concrete inputs. -/
theorem C10_format_position_none_on_missing_fields_witness :
    OfxConverter.format_position
        { date := some { year := 2020, month := 1, day := 2 },
          security := some "AAPL",
          unit_price := some ⟨false, 1005, -1⟩ } ≠ some ""
    ∧ OfxConverter.format_balance
        { name := "Assets:Checking", fid := "1", acctid := "2", indent := 4, currency := "$" }
        { currency := "$" } = "" := by
  have h := C10_format_position_none_on_missing_fields
    { date := some { year := 2020, month := 1, day := 2 },
      security := some "AAPL",
      unit_price := some ⟨false, 1005, -1⟩ }
    { name := "Assets:Checking", fid := "1", acctid := "2", indent := 4, currency := "$" }
    { currency := "$" } rfl rfl
  exact ⟨fun heq => h.2.1 "" heq rfl, h.2.2⟩

/-! ### C1 / C3: `Amount.format` -/

/-- The magnitude string `Amount.format` prints: full precision when
`unlimited`, two decimal places otherwise (always of the absolute value). -/
def amountMagStr (a : Amount) : String :=
  if a.unlimited then a.number.pyAbs.str else a.number.pyAbs.fixed2

/-- Closed form of `Amount.format`: sign marker, then the (possibly
quoted) label before a one-character label's number or after any other
number. -/
theorem amount_format_eq (a : Amount) :
    a.format =
      (if a.number.is_signed != a.reverse then "-" else "")
        ++ (if (quoteLabel a.currency).length = 1 then
              quoteLabel a.currency ++ amountMagStr a
            else
              amountMagStr a ++ " " ++ quoteLabel a.currency) := by
  unfold Amount.format amountMagStr
  cases hs : a.number.is_signed <;> cases hr : a.reverse <;>
    simp [hs, hr] <;> split <;> (apply String.ext; simp [String.data_append])

/-- C1: the minus sign is prefixed exactly when the stored sign bit and
`reverse` disagree (exclusive-or), the magnitude is the absolute value at
full precision when `unlimited` and at two decimal places otherwise; the
worked examples, including the `reverse` sign flips. -/
theorem C1_format_sign_xor_and_precision (a : Amount) :
    (a.format =
      (if xor a.number.is_signed a.reverse then "-" else "")
        ++ (if (quoteLabel a.currency).length = 1 then
              quoteLabel a.currency
                ++ (if a.unlimited then a.number.pyAbs.str else a.number.pyAbs.fixed2)
            else
              (if a.unlimited then a.number.pyAbs.str else a.number.pyAbs.fixed2)
                ++ " " ++ quoteLabel a.currency))
    ∧ Amount.format { number := ⟨false, 12345678, -3⟩, currency := "$" } = "$12345.68"
    ∧ Amount.format { number := ⟨false, 12345678, -3⟩, currency := "$", unlimited := true }
        = "$12345.678"
    ∧ Amount.format { number := ⟨false, 12345678, -3⟩, currency := "$", reverse := true }
        = "-$12345.68"
    ∧ Amount.format { number := ⟨true, 12345678, -3⟩, currency := "$" } = "-$12345.68"
    ∧ Amount.format { number := ⟨true, 12345678, -3⟩, currency := "$", reverse := true }
        = "$12345.68" := by
  exact ⟨amount_format_eq a, by decide, by decide, by decide, by decide, by decide⟩

/-- C3 counterexample: the one-character currency label `"5"` contains a
digit, so it is quoted and — its quoted form being three characters —
printed after the number, not immediately before it. -/
theorem C3_one_char_digit_label_counterexample :
    ("5" : String).length = 1
    ∧ Amount.format { number := ⟨false, 100, 0⟩, currency := "5" } = "100.00 \"5\""
    ∧ pyStartsWith (Amount.format { number := ⟨false, 100, 0⟩, currency := "5" }) ("5") = false
    ∧ pyStartsWith (Amount.format { number := ⟨false, 100, 0⟩, currency := "5" }) ("\"5\"")
        = false := by
  decide

/-- C3 (amended): the label is quoted exactly when it contains whitespace
or a digit, and placement is decided by the length of the label *after*
quoting: a one-character rendered label goes immediately before the
number, any other rendered label goes after it, separated by a space.  A
label that needs quoting is never one character once quoted, so a
one-character digit/whitespace label lands after the number. -/
theorem C3_quoting_and_placement_amended (a : Amount) :
    (containsWsOrDigit a.currency = true
      ↔ ∃ c ∈ a.currency.data, isPyWhitespace c = true ∨ ('0' ≤ c ∧ c ≤ '9'))
    ∧ quoteLabel a.currency
        = (if containsWsOrDigit a.currency then "\"" ++ a.currency ++ "\"" else a.currency)
    ∧ quoteLabel "10X" = "\"10X\""
    ∧ a.format =
        (if a.number.is_signed != a.reverse then "-" else "")
          ++ (if (quoteLabel a.currency).length = 1 then
                quoteLabel a.currency ++ amountMagStr a
              else
                amountMagStr a ++ " " ++ quoteLabel a.currency)
    ∧ (containsWsOrDigit a.currency = true → (quoteLabel a.currency).length ≠ 1) := by
  refine ⟨?_, rfl, by decide, amount_format_eq a, ?_⟩
  · simp [containsWsOrDigit, List.any_eq_true, Bool.or_eq_true, Bool.and_eq_true,
      decide_eq_true_iff]
  · intro h
    have hne : a.currency.data ≠ [] := by
      intro hnil
      rw [containsWsOrDigit, hnil] at h
      simp at h
    rw [quoteLabel, if_pos h]
    have hq : ("\"" : String).length = 1 := rfl
    have hlen : ("\"" ++ a.currency ++ "\"").length = a.currency.length + 2 := by
      rw [String.length_append, String.length_append, hq]
      omega
    rw [hlen]
    have hpos : 1 ≤ a.currency.length := by
      show 1 ≤ a.currency.data.length
      cases hd : a.currency.data with
      | nil => exact absurd hd hne
      | cons c cs => simp [hd]
    omega

/-- Witness for C3 (amended): the quoted one-character digit label is not
one character long, so it is placed after the number. -/
theorem C3_quoting_and_placement_amended_witness :
    (quoteLabel "5").length ≠ 1 :=
  (C3_quoting_and_placement_amended
    { number := ⟨false, 100, 0⟩, currency := "5" }).2.2.2.2 (by decide)

/-! ### C9 -/

/-- C9: the layout of `Posting.format`: indent, account, a gap of
`52 - indent - len(account) - len(amount)` spaces floored at two, the
amount, then the optional ` = <asserted>` and ` @ <unit_price>` tails and
a final newline. -/
theorem C9_posting_format_layout (p : Posting) (indent : Nat) :
    (p.format indent =
      spaces indent ++ p.account ++ spaces (p.space_count indent).toNat ++ p.amount.format
        ++ (match p.asserted with | some a => " = " ++ a.format | none => "")
        ++ (match p.unit_price with | some a => " @ " ++ a.format | none => "")
        ++ "\n")
    ∧ p.space_count indent
        = max 2 (52 - (indent : Int) - (p.account.length : Int) - (p.amount.format.length : Int))
    ∧ 2 ≤ p.space_count indent
    ∧ ∃ s, p.format indent = s ++ "\n" := by
  have h1 : p.format indent =
      spaces indent ++ p.account ++ spaces (p.space_count indent).toNat ++ p.amount.format
        ++ (match p.asserted with | some a => " = " ++ a.format | none => "")
        ++ (match p.unit_price with | some a => " @ " ++ a.format | none => "")
        ++ "\n" := by
    unfold Posting.format
    cases p.asserted <;> cases p.unit_price <;> (apply String.ext; simp [String.data_append])
  refine ⟨h1, ?_, ?_, ⟨_, h1⟩⟩
  · simp only [Posting.space_count]
    rcases lt_or_le (52 - (indent : Int) - (p.account.length : Int)
        - (p.amount.format.length : Int)) 2 with h | h
    · rw [if_pos h, max_eq_left (le_of_lt h)]
    · rw [if_neg (not_lt.mpr h), max_eq_right h]
  · simp only [Posting.space_count]
    split <;> omega

/-! ### C4 -/

/-- C4 counterexample: with a nonempty payee and a missing (or `None`)
memo attribute, `format_payee` evaluates `txn.memo.startswith(payee)` and
raises an `AttributeError` instead of degrading to a fallback. -/
theorem C4_missing_memo_raises_counterexample :
    OfxConverter.format_payee (some "Foo") none
        = .error ("AttributeError: object has no attribute 'startswith'")
    ∧ (OfxConverter.format_payee (some "Foo") none).isOk = false := by
  decide

/-- C4 (amended): `format_payee` returns `"UNKNOWN"` when payee and memo
are both empty or missing, the memo when the payee is empty (or the memo
starts with the payee), the payee when the memo is the empty string (or
the payee starts with the memo), and `"<payee> <memo>"` otherwise — but
it raises an `AttributeError` (rather than degrading) exactly when the
payee is nonempty and the memo attribute is missing or `None`. -/
theorem C4_format_payee_amended (payee memo : Option String) :
    OfxConverter.format_payee none none = .ok ("UNKNOWN")
    ∧ OfxConverter.format_payee (some "") (some "") = .ok ("UNKNOWN")
    ∧ OfxConverter.format_payee (some "Foo") (some "Foo Bar") = .ok ("Foo Bar")
    ∧ ((∃ e, OfxConverter.format_payee payee memo = .error e)
        ↔ (isNoneOrEmpty payee = false ∧ memo = none))
    ∧ (isNoneOrEmpty payee = true → isNoneOrEmpty memo = true →
        OfxConverter.format_payee payee memo = .ok ("UNKNOWN"))
    ∧ (∀ m, memo = some m → isNoneOrEmpty payee = true → isNoneOrEmpty memo = false →
        OfxConverter.format_payee payee memo = .ok m)
    ∧ (∀ p m, payee = some p → memo = some m → isNoneOrEmpty payee = false →
        OfxConverter.format_payee payee memo =
          .ok (if pyStartsWith m p then m
               else if m = "" || pyStartsWith p m then p
               else p ++ " " ++ m)) := by
  refine ⟨by decide, by decide, by decide, ?_, ?_, ?_, ?_⟩
  · constructor
    · rintro ⟨e, he⟩
      unfold OfxConverter.format_payee at he
      by_cases hp : isNoneOrEmpty payee = true
      · rw [hp] at he
        cases hm : isNoneOrEmpty memo <;> rw [hm] at he <;> simp at he
      · have hp' : isNoneOrEmpty payee = false := by simpa using hp
        rw [hp'] at he
        refine ⟨hp', ?_⟩
        cases hm : memo with
        | none => rfl
        | some m =>
          rw [hm] at he
          simp at he
          split at he
          · simp at he
          · split at he <;> simp at he
    · rintro ⟨hp, hm⟩
      refine ⟨"AttributeError: object has no attribute 'startswith'", ?_⟩
      subst hm
      unfold OfxConverter.format_payee
      rw [hp]
      rfl
  · intro hp hm
    simp [OfxConverter.format_payee, hp, hm]
  · intro m hm hp hme
    subst hm
    simp [OfxConverter.format_payee, hp, hme]
  · intro p m hp hm hpe
    subst hp
    subst hm
    simp only [OfxConverter.format_payee, hpe, Bool.false_and, Bool.false_eq_true,
      if_false, Option.getD_some]
    split
    · rfl
    · split <;> rfl

/-- Witness for C4 (amended) at the spec's own example inputs. -/
theorem C4_format_payee_amended_witness :
    OfxConverter.format_payee (some "Foo") (some "Foo Bar") = .ok ("Foo Bar")
    ∧ OfxConverter.format_payee none (some "Memo") = .ok ("Memo") := by
  constructor
  · have h := (C4_format_payee_amended (some "Foo") (some "Foo Bar")).2.2.2.2.2.2
      "Foo" "Foo Bar" rfl rfl (by decide)
    rw [h]
    decide
  · exact (C4_format_payee_amended none (some "Memo")).2.2.2.2.2.1
      "Memo" rfl (by decide) (by decide)

/-! ### C5 -/

/-- C5: the investment contra-account routing: textual `buy*` / `sell*`
and legacy codes 0, 1, 3, 4 go to the unknown-investment-account default;
`transfer` and `jrnlsec` go to the converter's own account; `reinvest`
and legacy 2 go to `"Income:Interest"`; every unrecognized code goes,
without an error, to the converter's own account — and an investment
`format_txn` succeeds no matter the type code (only a `format_payee`
raise can fail it). -/
theorem C5_invest_contra_account_routing (c : OfxConverter) (txn : InvestmentTxn)
    (ua : Option String) (name s : String) (n : Int) :
    (pyStartsWith s ("buy") = true ∨ pyStartsWith s ("sell") = true →
      investContra ua name (.text s) = pyOr ua ("Assets:Unknown"))
    ∧ (n = 0 ∨ n = 1 ∨ n = 3 ∨ n = 4 →
      investContra ua name (.legacy n) = pyOr ua ("Assets:Unknown"))
    ∧ investContra ua name (.text "transfer") = name
    ∧ investContra ua name (.text "jrnlsec") = name
    ∧ investContra ua name (.text "reinvest") = "Income:Interest"
    ∧ investContra ua name (.legacy 2) = "Income:Interest"
    ∧ (pyStartsWith s ("buy") = false → pyStartsWith s ("sell") = false →
        s ≠ "transfer" → s ≠ "jrnlsec" → s ≠ "reinvest" →
        investContra ua name (.text s) = name)
    ∧ (¬(n = 0 ∨ n = 1 ∨ n = 3 ∨ n = 4) → n ≠ 2 → investContra ua name (.legacy n) = name)
    ∧ (c.format_txn (.invest txn)).isOk
        = (OfxConverter.format_payee txn.payee txn.memo).isOk := by
  refine ⟨?_, ?_, ?_, ?_, ?_, ?_, ?_, ?_, ?_⟩
  · intro h
    rcases h with h | h <;> simp [investContra, h]
  · intro h
    rcases h with rfl | rfl | rfl | rfl <;> norm_num [investContra]
  · have h1 : (pyStartsWith "transfer" ("buy") || pyStartsWith "transfer" ("sell")) = false := by
      decide
    simp [investContra, h1]
  · have h1 : (pyStartsWith "jrnlsec" ("buy") || pyStartsWith "jrnlsec" ("sell")) = false := by
      decide
    simp [investContra, h1]
  · have h1 : (pyStartsWith "reinvest" ("buy") || pyStartsWith "reinvest" ("sell")) = false := by
      decide
    simp [investContra, h1]
  · norm_num [investContra]
  · intro h1 h2 h3 h4 h5
    simp [investContra, h1, h2, h3, h4, h5]
  · intro h1 h2
    simp [investContra, h1, h2]
  · cases h : OfxConverter.format_payee txn.payee txn.memo <;>
      simp [OfxConverter.format_txn, h, Except.bind, Except.isOk, Except.toBool]

/-- Witness for C5 at concrete type codes. -/
theorem C5_invest_contra_account_routing_witness :
    investContra none "Assets:Broker" (.text "buystock") = "Assets:Unknown"
    ∧ investContra none "Assets:Broker" (.legacy 2) = "Income:Interest"
    ∧ investContra none "Assets:Broker" (.text "income") = "Assets:Broker" := by
  have h := C5_invest_contra_account_routing
    { name := "Assets:Broker", fid := "1", acctid := "2", indent := 4, currency := "$" }
    { id := "t", tradeDate := { year := 2020, month := 1, day := 2 },
      type := .text "buystock", units := ⟨false, 1, 0⟩, unit_price := ⟨false, 1, 0⟩,
      security := "AAPL" }
    none "Assets:Broker" "buystock" 0
  have h2 := C5_invest_contra_account_routing
    { name := "Assets:Broker", fid := "1", acctid := "2", indent := 4, currency := "$" }
    { id := "t", tradeDate := { year := 2020, month := 1, day := 2 },
      type := .text "income", units := ⟨false, 1, 0⟩, unit_price := ⟨false, 1, 0⟩,
      security := "AAPL" }
    none "Assets:Broker" "income" 0
  refine ⟨?_, h.2.2.2.2.2.1, ?_⟩
  · have hb := h.1 (Or.inl (by decide))
    rw [hb]
    rfl
  · exact h2.2.2.2.2.2.2.1 (by decide) (by decide) (by decide) (by decide) (by decide)

/-! ### C2 -/

/-- C2: a cash transaction renders exactly two postings — the signed
amount to the converter's account, the reversed amount to the dynamically
inferred contra-account — and their displayed values sum to zero whatever
the sign of the input amount. -/
theorem C2_cash_txn_two_inverse_postings (c : OfxConverter) (txn : CashTxn) (p : String)
    (h : OfxConverter.format_payee txn.payee txn.memo = .ok p) :
    c.format_txn (.cash txn) =
      .ok (Converter.format_date txn.date ++ " " ++ p ++ "\n"
        ++ spaces c.indent ++ "; ofxid: " ++ c.mk_ofxid txn.id ++ "\n"
        ++ Posting.format { account := c.name,
                            amount := { number := txn.amount, currency := c.currency } } c.indent
        ++ Posting.format { account := c.mk_dynamic_account p c.name,
                            amount := { number := txn.amount, currency := c.currency,
                                        reverse := true } } c.indent)
    ∧ Amount.displayed_value { number := txn.amount, currency := c.currency }
        + Amount.displayed_value { number := txn.amount, currency := c.currency,
                                   reverse := true }
        = 0 := by
  constructor
  · simp [OfxConverter.format_txn, h, Except.bind]
  · unfold Amount.displayed_value
    cases hs : txn.amount.is_signed <;> simp [PyDecimal.is_signed] at hs <;>
      simp [PyDecimal.is_signed, hs]

/-- Witness for C2 at a concrete negative-amount transaction. -/
theorem C2_cash_txn_two_inverse_postings_witness :
    Amount.displayed_value { number := ⟨true, 40000, -2⟩, currency := "$" }
      + Amount.displayed_value { number := ⟨true, 40000, -2⟩, currency := "$", reverse := true }
      = 0 :=
  (C2_cash_txn_two_inverse_postings
    { name := "Assets:Checking", fid := "1", acctid := "2", indent := 4, currency := "$" }
    { id := "100", date := { year := 2020, month := 3, day := 5 },
      payee := some "Someone", memo := some "Rent", amount := ⟨true, 40000, -2⟩ }
    "Someone Rent" (by decide)).2

/-! ### C7 -/

theorem charListLe_total (a b : List Char) : charListLe a b = true ∨ charListLe b a = true := by
  induction a generalizing b with
  | nil => left; rfl
  | cons c cs ih =>
    cases b with
    | nil => right; rfl
    | cons d ds =>
      rcases Nat.lt_trichotomy c.toNat d.toNat with h | h | h
      · left; simp [charListLe, h]
      · have hcd : ¬ c.toNat < d.toNat := by omega
        have hdc : ¬ d.toNat < c.toNat := by omega
        rcases ih ds with h2 | h2
        · left; simp [charListLe, hcd, hdc, h2]
        · right; simp [charListLe, hcd, hdc, h2]
      · right; simp [charListLe, h]

theorem charListLe_trans (a : List Char) : ∀ (b c : List Char),
    charListLe a b = true → charListLe b c = true → charListLe a c = true := by
  induction a with
  | nil => intro b c _ _; rfl
  | cons x xs ih =>
    intro b c h1 h2
    cases b with
    | nil => simp [charListLe] at h1
    | cons y ys =>
      cases c with
      | nil => simp [charListLe] at h2
      | cons z zs =>
        by_cases hxy : x.toNat < y.toNat
        · by_cases hyz : y.toNat < z.toNat
          · have hxz : x.toNat < z.toNat := hxy.trans hyz
            simp [charListLe, hxz]
          · by_cases hzy : z.toNat < y.toNat
            · simp [charListLe, hyz, hzy] at h2
            · have hxz : x.toNat < z.toNat := by omega
              simp [charListLe, hxz]
        · by_cases hyx : y.toNat < x.toNat
          · simp [charListLe, hxy, hyx] at h1
          · by_cases hyz : y.toNat < z.toNat
            · have hxz : x.toNat < z.toNat := by omega
              simp [charListLe, hxz]
            · by_cases hzy : z.toNat < y.toNat
              · simp [charListLe, hyz, hzy] at h2
              · have hxz : ¬ x.toNat < z.toNat := by omega
                have hzx : ¬ z.toNat < x.toNat := by omega
                simp [charListLe, hxy, hyx] at h1
                simp [charListLe, hyz, hzy] at h2
                simp [charListLe, hxz, hzx]
                exact ih ys zs h1 h2

theorem charListLe_antisymm (a : List Char) : ∀ (b : List Char),
    charListLe a b = true → charListLe b a = true → a = b := by
  induction a with
  | nil =>
    intro b _ h2
    cases b with
    | nil => rfl
    | cons y ys => simp [charListLe] at h2
  | cons x xs ih =>
    intro b h1 h2
    cases b with
    | nil => simp [charListLe] at h1
    | cons y ys =>
      by_cases hxy : x.toNat < y.toNat
      · have hyx : ¬ y.toNat < x.toNat := by omega
        simp [charListLe, hxy, hyx] at h2
      · by_cases hyx : y.toNat < x.toNat
        · simp [charListLe, hxy, hyx] at h1
        · have hx : x = y := by
            apply Char.ext
            apply UInt32.ext
            have h : x.toNat = y.toNat := by omega
            simpa [Char.toNat] using h
          subst hx
          simp [charListLe, hxy] at h1 h2
          rw [ih ys h1 h2]

instance instIsTotalPyStrLe : IsTotal String (fun a b => pyStrLe a b = true) :=
  ⟨fun a b => charListLe_total a.data b.data⟩

instance instIsTransPyStrLe : IsTrans String (fun a b => pyStrLe a b = true) :=
  ⟨fun a b c h1 h2 => charListLe_trans a.data b.data c.data h1 h2⟩

instance instIsAntisymmPyStrLe : IsAntisymm String (fun a b => pyStrLe a b = true) :=
  ⟨fun a b h1 h2 => String.ext (charListLe_antisymm a.data b.data h1 h2)⟩

/-- Two string lists have the same `sorted(...)` image exactly when one is
a permutation (same multiset) of the other. -/
theorem pySorted_eq_iff_perm (l₁ l₂ : List String) :
    pySorted l₁ = pySorted l₂ ↔ List.Perm l₁ l₂ := by
  constructor
  · intro h
    have p1 := List.perm_insertionSort (fun a b => pyStrLe a b = true) l₁
    have p2 := List.perm_insertionSort (fun a b => pyStrLe a b = true) l₂
    unfold pySorted at h
    rw [h] at p1
    exact (p2.symm.trans p1).symm
  · intro h
    unfold pySorted
    exact List.eq_of_perm_of_sorted
      ((List.perm_insertionSort _ l₁).trans (h.trans (List.perm_insertionSort _ l₂).symm))
      (List.sorted_insertionSort _ l₁) (List.sorted_insertionSort _ l₂)

/-- C7 counterexample: a header row with `"Date"` twice (and every
recognized column present) has exactly the recognized header *set*, yet
construction still fails — the code compares sorted header lists, i.e.
multisets, not sets. -/
theorem C7_duplicate_header_counterexample :
    ("Date" :: PAYPAL_FIELDS).toFinset = PAYPAL_FIELDS.toFinset
    ∧ CsvConverter.mk? "Paypal" ⟨"Date" :: PAYPAL_FIELDS⟩ 4 none none
        = .error ("Cannot determine CSV type") := by
  constructor
  · decide
  · have h : ¬ (pySorted ("Date" :: PAYPAL_FIELDS) = pySorted PAYPAL_FIELDS) := by decide
    unfold CsvConverter.mk?
    rw [if_neg h]

/-- C7 (amended): `CsvConverter` construction — which validates before any
row is read — succeeds exactly when the header list is a permutation of
the single recognized schema's field list (equal as multisets, so
duplicated headers are rejected even when the header set matches), and
otherwise fails with the unsupported-format error. -/
theorem C7_csv_schema_check_amended (name : String) (csv : CsvFile) (indent : Nat)
    (ledger : Option Lookup) (ua : Option String) :
    ((CsvConverter.mk? name csv indent ledger ua).isOk = true
      ↔ List.Perm csv.fieldnames PAYPAL_FIELDS)
    ∧ (CsvConverter.mk? name csv indent ledger ua = .error ("Cannot determine CSV type")
      ↔ ¬ List.Perm csv.fieldnames PAYPAL_FIELDS) := by
  unfold CsvConverter.mk?
  by_cases h : pySorted csv.fieldnames = pySorted PAYPAL_FIELDS
  · rw [if_pos h]
    have hp := (pySorted_eq_iff_perm csv.fieldnames PAYPAL_FIELDS).mp h
    simp [Except.isOk, Except.toBool, hp]
  · rw [if_neg h]
    have hp : ¬ List.Perm csv.fieldnames PAYPAL_FIELDS :=
      fun hperm => h ((pySorted_eq_iff_perm csv.fieldnames PAYPAL_FIELDS).mpr hperm)
    simp [Except.isOk, Except.toBool, hp]

end LedgerAutosync
